import Mathlib

/-!
Shallow embedding of the todo-list web client:
the `Todo` record (src/types), the `todoApi` REST layer (API URL, request
construction, `handleResponse`), the `useTodos` hook (state, the four CRUD
operations with their loading/error flag discipline), and `useTodoContext`.

HTTP is modelled explicitly: a request is a record of method, URL, headers
and an optional JSON object body; an operation is a function of the response
its single fetch call receives, returning the list of requests it issued
together with its result.  The `useTodos` hook is modelled by the sequence of
React state-setter calls each operation performs (`StateUpdate`), folded over
the hook state; `setTodos` carries the actual updater function passed, so
that closure-capture versus previous-state semantics is preserved.
-/

/-- The `Todo` record from src/types: numeric id, name, completed flag,
optional description and priority. -/
structure Todo where
  id : Int
  name : String
  completed : Bool
  description : Option String
  priority : Option Int
deriving DecidableEq, Repr

/-- A JSON scalar value, enough for the bodies this client sends. -/
inductive JsonValue where
  | str (s : String)
  | bool (b : Bool)
deriving DecidableEq, Repr

/-- A fetch request: method, URL, headers, optional JSON object body. -/
structure Request where
  method : String
  url : String
  headers : List (String × String)
  body : Option (List (String × JsonValue))
deriving DecidableEq, Repr

/-- A fetch response whose JSON body has already been parsed to `α`. -/
structure Response (α : Type) where
  ok : Bool
  status : Nat
  jsonBody : α

/-- The `APIError` class: an error with `name = "APIError"` and a message. -/
structure APIError where
  message : String
  name : String
deriving DecidableEq, Repr

/-- `new APIError(message)`: the constructor sets the `name` field. -/
def APIError.make (message : String) : APIError :=
  { message := message, name := "APIError" }

/-- `handleResponse` from the API module: throw `APIError` on a non-ok
response, otherwise return the parsed JSON body. -/
def handleResponse {α : Type} (response : Response α) : Except APIError α :=
  if !response.ok then
    Except.error (APIError.make ("API failed " ++ toString response.status))
  else
    Except.ok response.jsonBody

/-- The `API_URL` constant of the API module. -/
def API_URL : String := "https://eli-workshop.vercel.app/api/users/nerv01/todos"

/-- The per-todo URL `API_URL/todoId` used by fetchTodo, deleteTodo and
toggleTodo. -/
def todoIdUrl (todoId : Int) : String := API_URL ++ "/" ++ toString todoId

/-- The `Content-type: application/json` headers sent with POST and PATCH. -/
def jsonHeaders : List (String × String) := [("Content-type", "application/json")]

/-- The request issued by `todoApi.fetchTodos`: a plain GET of `API_URL`. -/
def todoApi.fetchTodosRequest : Request :=
  { method := "GET", url := API_URL, headers := [], body := none }

/-- `todoApi.fetchTodos`, as a function of the response its fetch receives:
the requests issued and the result `handleResponse` produces. -/
def todoApi.fetchTodos (resp : Response (List Todo)) :
    List Request × Except APIError (List Todo) :=
  ([todoApi.fetchTodosRequest], handleResponse resp)

/-- The request issued by `todoApi.createTodo`: POST of `API_URL` with the
JSON body `{ name: newTodo }`. -/
def todoApi.createTodoRequest (newTodo : String) : Request :=
  { method := "POST", url := API_URL, headers := jsonHeaders,
    body := some [("name", JsonValue.str newTodo)] }

/-- `todoApi.createTodo`, as a function of the response its fetch receives. -/
def todoApi.createTodo (newTodo : String) (resp : Response Todo) :
    List Request × Except APIError Todo :=
  ([todoApi.createTodoRequest newTodo], handleResponse resp)

/-- The request issued by `todoApi.fetchTodo`: GET of the per-todo URL. -/
def todoApi.fetchTodoRequest (todoId : Int) : Request :=
  { method := "GET", url := todoIdUrl todoId, headers := [], body := none }

/-- `todoApi.fetchTodo`, as a function of the response its fetch receives. -/
def todoApi.fetchTodo (todoId : Int) (resp : Response Todo) :
    List Request × Except APIError Todo :=
  ([todoApi.fetchTodoRequest todoId], handleResponse resp)

/-- The request issued by `todoApi.deleteTodo`: DELETE of the per-todo URL. -/
def todoApi.deleteTodoRequest (todoId : Int) : Request :=
  { method := "DELETE", url := todoIdUrl todoId, headers := [], body := none }

/-- `todoApi.deleteTodo`; the parsed body type is unconstrained in the
source (`handleResponse(response)` with no type argument). -/
def todoApi.deleteTodo {α : Type} (todoId : Int) (resp : Response α) :
    List Request × Except APIError α :=
  ([todoApi.deleteTodoRequest todoId], handleResponse resp)

/-- The request issued by `todoApi.toggleTodo`: PATCH of the per-todo URL
with the JSON body `{ completed: isCompleted }`. -/
def todoApi.toggleTodoRequest (todoId : Int) (isCompleted : Bool) : Request :=
  { method := "PATCH", url := todoIdUrl todoId, headers := jsonHeaders,
    body := some [("completed", JsonValue.bool isCompleted)] }

/-- `todoApi.toggleTodo`, as a function of the response its fetch receives. -/
def todoApi.toggleTodo (todoId : Int) (isCompleted : Bool) (resp : Response Todo) :
    List Request × Except APIError Todo :=
  ([todoApi.toggleTodoRequest todoId isCompleted], handleResponse resp)

/-- The state held by the `useTodos` hook: the three `useState` cells. -/
structure TodosState where
  todos : List Todo
  isLoading : Bool
  error : Option String
deriving DecidableEq, Repr

/-- The initial hook state: `useState([])`, `useState(false)`,
`useState(null)`. -/
def initialTodosState : TodosState :=
  { todos := [], isLoading := false, error := none }

/-- One React state-setter call made by a `useTodos` operation.  `setTodos`
carries the updater function actually passed (a plain value `v` is the
updater `fun _ => v`). -/
inductive StateUpdate where
  | setError (e : Option String)
  | setIsLoading (b : Bool)
  | setTodos (f : List Todo → List Todo)

/-- Apply one state-setter call to the hook state. -/
def applyUpdate (s : TodosState) : StateUpdate → TodosState
  | StateUpdate.setError e => { s with error := e }
  | StateUpdate.setIsLoading b => { s with isLoading := b }
  | StateUpdate.setTodos f => { s with todos := f s.todos }

/-- Run a sequence of state-setter calls in order. -/
def runUpdates (s : TodosState) (us : List StateUpdate) : TodosState :=
  us.foldl applyUpdate s

/-- The updater `addTodo` passes to `setTodos`:
`(prevTodos) => [...prevTodos, newTodo]`. -/
def addTodoUpdater (newTodo : Todo) : List Todo → List Todo :=
  fun prevTodos => prevTodos ++ [newTodo]

/-- The updater `deleteTodo` passes to `setTodos`:
`() => todos.filter((todo) => todo.id !== todoId)` — it ignores its
argument and filters the render-time `todos` captured by the closure. -/
def deleteTodoUpdater (todos : List Todo) (todoId : Int) : List Todo → List Todo :=
  fun _ => todos.filter (fun todo => todo.id != todoId)

/-- The updater `toggleTodo` passes to `setTodos`:
`(prevTodos) => prevTodos.map((prevTodo) => prevTodo.id === todo.id ? updatedTodo : prevTodo)`. -/
def toggleTodoUpdater (todo : Todo) (updatedTodo : Todo) : List Todo → List Todo :=
  fun prevTodos =>
    prevTodos.map (fun prevTodo => if prevTodo.id = todo.id then updatedTodo else prevTodo)

/-- The state-setter calls `fetchTodos` makes, given the outcome of its
awaited API call. -/
def fetchTodosUpdates (outcome : Except APIError (List Todo)) : List StateUpdate :=
  [StateUpdate.setError none, StateUpdate.setIsLoading true] ++
    (match outcome with
      | Except.ok data => [StateUpdate.setTodos (fun _ => data)]
      | Except.error _ => [StateUpdate.setError (some "failed to load todos")]) ++
    [StateUpdate.setIsLoading false]

/-- The state-setter calls `addTodo` makes, given the outcome of its awaited
API call. -/
def addTodoUpdates (outcome : Except APIError Todo) : List StateUpdate :=
  [StateUpdate.setError none, StateUpdate.setIsLoading true] ++
    (match outcome with
      | Except.ok newTodo => [StateUpdate.setTodos (addTodoUpdater newTodo)]
      | Except.error _ => [StateUpdate.setError (some "failed to add todos")]) ++
    [StateUpdate.setIsLoading false]

/-- The state-setter calls `deleteTodo` makes; `renderTodos` is the `todos`
value captured by the closure at the render that created the callback. -/
def deleteTodoUpdates {α : Type} (renderTodos : List Todo) (todoId : Int)
    (outcome : Except APIError α) : List StateUpdate :=
  [StateUpdate.setError none, StateUpdate.setIsLoading true] ++
    (match outcome with
      | Except.ok _ => [StateUpdate.setTodos (deleteTodoUpdater renderTodos todoId)]
      | Except.error _ => [StateUpdate.setError (some "failed to delete todo")]) ++
    [StateUpdate.setIsLoading false]

/-- The state-setter calls `toggleTodo` makes, given the outcome of its
awaited API call. -/
def toggleTodoUpdates (todo : Todo) (outcome : Except APIError Todo) : List StateUpdate :=
  [StateUpdate.setError none, StateUpdate.setIsLoading true] ++
    (match outcome with
      | Except.ok updatedTodo => [StateUpdate.setTodos (toggleTodoUpdater todo updatedTodo)]
      | Except.error _ => [StateUpdate.setError (some "failed to toggle todo")]) ++
    [StateUpdate.setIsLoading false]

/-- The `fetchTodos` operation of `useTodos` (also exposed as `refetch`):
given the state at update time and the response its one fetch receives,
the requests issued and the resulting state. -/
def useTodos.fetchTodos (s : TodosState) (resp : Response (List Todo)) :
    List Request × TodosState :=
  let r := todoApi.fetchTodos resp
  (r.1, runUpdates s (fetchTodosUpdates r.2))

/-- The `addTodo` operation of `useTodos`. -/
def useTodos.addTodo (s : TodosState) (todoName : String) (resp : Response Todo) :
    List Request × TodosState :=
  let r := todoApi.createTodo todoName resp
  (r.1, runUpdates s (addTodoUpdates r.2))

/-- The `deleteTodo` operation of `useTodos`.  `renderTodos` is the `todos`
array captured by the closure when the callback was created; `s` is the
state current when the setter runs. -/
def useTodos.deleteTodo {α : Type} (renderTodos : List Todo) (s : TodosState)
    (todoId : Int) (resp : Response α) : List Request × TodosState :=
  let r := todoApi.deleteTodo todoId resp
  (r.1, runUpdates s (deleteTodoUpdates renderTodos todoId r.2))

/-- The `toggleTodo` operation of `useTodos`; the hook requests the toggled
value `!todo.completed` from the API. -/
def useTodos.toggleTodo (s : TodosState) (todo : Todo) (resp : Response Todo) :
    List Request × TodosState :=
  let r := todoApi.toggleTodo todo.id (!todo.completed) resp
  (r.1, runUpdates s (toggleTodoUpdates todo r.2))

/-- The record returned by `useTodos`: the state fields together with the
four operations (delete with its closure over the render-time todos). -/
structure UseTodosReturn where
  todos : List Todo
  isLoading : Bool
  error : Option String
  addTodo : String → Response Todo → List Request × TodosState
  deleteTodo : Int → Response Unit → List Request × TodosState
  toggleTodo : Todo → Response Todo → List Request × TodosState
  refetch : Response (List Todo) → List Request × TodosState

/-- What `useTodos` returns when rendered with state `s`. -/
def useTodos.render (s : TodosState) : UseTodosReturn :=
  { todos := s.todos, isLoading := s.isLoading, error := s.error,
    addTodo := useTodos.addTodo s,
    deleteTodo := useTodos.deleteTodo s.todos s,
    toggleTodo := useTodos.toggleTodo s,
    refetch := useTodos.fetchTodos s }

/-- The value held by `TodosContext`: the shape of the return value of
`useTodos` (the provider passes it through unchanged). -/
def TodosContextValue : Type := UseTodosReturn

/-- `useTodoContext`: read the context (`none` models the `undefined`
default value of `TodosContext`), throw an `Error` carrying the message
"nejakej error" when it is undefined, otherwise return it unchanged. -/
def useTodoContext (context : Option TodosContextValue) : Except String TodosContextValue :=
  match context with
  | none => Except.error "nejakej error"
  | some c => Except.ok c

/-! Sample values used by the witness theorems. -/

/-- A sample todo with id 1, not completed. -/
def sampleTodo1 : Todo :=
  { id := 1, name := "one", completed := false, description := none, priority := none }

/-- A sample todo with id 2, completed, with the optional fields present. -/
def sampleTodo2 : Todo :=
  { id := 2, name := "two", completed := true, description := some "d", priority := some 3 }

/-- The todo the API would return after toggling `sampleTodo1`. -/
def sampleTodo1Toggled : Todo :=
  { id := 1, name := "one", completed := true, description := none, priority := none }

/-- A sample hook state holding `sampleTodo1` and `sampleTodo2`. -/
def sampleState : TodosState :=
  { todos := [sampleTodo1, sampleTodo2], isLoading := false, error := none }

/-- C1: a successful `toggleTodo t` issues one PATCH request whose body asks
the API for the completed value `!t.completed`, and updates the list so that
its length is unchanged, every element whose id differs from `t.id` stays
unchanged at its position, and every element whose id equals `t.id` is
replaced by the todo the API returned. -/
theorem toggleTodo_success_requests_negation_and_replaces_by_id
    (s : TodosState) (t : Todo) (resp : Response Todo) (hok : resp.ok = true) :
    (useTodos.toggleTodo s t resp).1 =
      [{ method := "PATCH", url := API_URL ++ "/" ++ toString t.id,
         headers := [("Content-type", "application/json")],
         body := some [("completed", JsonValue.bool (!t.completed))] }] ∧
    (useTodos.toggleTodo s t resp).2.todos.length = s.todos.length ∧
    ∀ (i : Nat) (hi : i < s.todos.length)
      (hi2 : i < (useTodos.toggleTodo s t resp).2.todos.length),
      (useTodos.toggleTodo s t resp).2.todos[i] =
        if (s.todos[i]).id = t.id then resp.jsonBody else s.todos[i] := by
  refine ⟨?_, ?_, ?_⟩
  · simp [useTodos.toggleTodo, todoApi.toggleTodo, todoApi.toggleTodoRequest,
      todoIdUrl, jsonHeaders]
  · simp [useTodos.toggleTodo, todoApi.toggleTodo, handleResponse, hok,
      toggleTodoUpdates, runUpdates, applyUpdate, toggleTodoUpdater]
  · intro i hi hi2
    simp [useTodos.toggleTodo, todoApi.toggleTodo, handleResponse, hok,
      toggleTodoUpdates, runUpdates, applyUpdate, toggleTodoUpdater]

/-- C1 witness: toggling `sampleTodo1` in `sampleState` with a successful
response replaces the first element and keeps the second. -/
theorem toggleTodo_success_requests_negation_and_replaces_by_id_witness :
    (useTodos.toggleTodo sampleState sampleTodo1
        { ok := true, status := 200, jsonBody := sampleTodo1Toggled }).2.todos.length =
      sampleState.todos.length ∧
    (useTodos.toggleTodo sampleState sampleTodo1
        { ok := true, status := 200, jsonBody := sampleTodo1Toggled }).2.todos =
      [sampleTodo1Toggled, sampleTodo2] := by
  refine ⟨(toggleTodo_success_requests_negation_and_replaces_by_id sampleState sampleTodo1
    { ok := true, status := 200, jsonBody := sampleTodo1Toggled } rfl).2.1, ?_⟩
  decide

/-- C2: a successful `addTodo todoName` sets the todo list to the previous
list with the todo returned by the API appended as the last element, so every
previously present todo is unchanged and keeps its relative order. -/
theorem addTodo_success_appends (s : TodosState) (todoName : String)
    (resp : Response Todo) (hok : resp.ok = true) :
    (useTodos.addTodo s todoName resp).2.todos = s.todos ++ [resp.jsonBody] := by
  simp [useTodos.addTodo, todoApi.createTodo, handleResponse, hok,
    addTodoUpdates, runUpdates, applyUpdate, addTodoUpdater]

/-- C2 witness: adding to `sampleState` with a successful response appends
the returned todo after the two existing ones. -/
theorem addTodo_success_appends_witness :
    (useTodos.addTodo sampleState "three"
        { ok := true, status := 201, jsonBody := sampleTodo1Toggled }).2.todos =
      sampleState.todos ++ [sampleTodo1Toggled] :=
  addTodo_success_appends sampleState "three"
    { ok := true, status := 201, jsonBody := sampleTodo1Toggled } rfl

/-- C3: every operation of `useTodos` starts by resetting the error to null,
and on a failed API call its whole effect on the state cells is exactly the
four setter calls shown: reset error, loading on, set the one fixed error
string of that operation, loading off — no retry, no other recovery. -/
theorem operations_reset_error_and_fixed_failure_string :
    (∀ (o : Except APIError (List Todo)),
      (fetchTodosUpdates o).head? = some (StateUpdate.setError none)) ∧
    (∀ (o : Except APIError Todo),
      (addTodoUpdates o).head? = some (StateUpdate.setError none)) ∧
    (∀ (renderTodos : List Todo) (todoId : Int) (o : Except APIError Unit),
      (deleteTodoUpdates renderTodos todoId o).head? = some (StateUpdate.setError none)) ∧
    (∀ (t : Todo) (o : Except APIError Todo),
      (toggleTodoUpdates t o).head? = some (StateUpdate.setError none)) ∧
    (∀ (e : APIError), fetchTodosUpdates (Except.error e) =
      [StateUpdate.setError none, StateUpdate.setIsLoading true,
       StateUpdate.setError (some "failed to load todos"), StateUpdate.setIsLoading false]) ∧
    (∀ (e : APIError), addTodoUpdates (Except.error e) =
      [StateUpdate.setError none, StateUpdate.setIsLoading true,
       StateUpdate.setError (some "failed to add todos"), StateUpdate.setIsLoading false]) ∧
    (∀ (renderTodos : List Todo) (todoId : Int) (e : APIError),
      deleteTodoUpdates (α := Unit) renderTodos todoId (Except.error e) =
      [StateUpdate.setError none, StateUpdate.setIsLoading true,
       StateUpdate.setError (some "failed to delete todo"), StateUpdate.setIsLoading false]) ∧
    (∀ (t : Todo) (e : APIError), toggleTodoUpdates t (Except.error e) =
      [StateUpdate.setError none, StateUpdate.setIsLoading true,
       StateUpdate.setError (some "failed to toggle todo"), StateUpdate.setIsLoading false]) := by
  refine ⟨fun o => ?_, fun o => ?_, fun rt i o => ?_, fun t o => ?_,
    fun e => rfl, fun e => rfl, fun rt i e => rfl, fun t e => rfl⟩ <;>
    cases o <;> rfl

/-- C4: `handleResponse` returns the parsed JSON body exactly when the
response is ok, and throws an `APIError` with message "API failed " followed
by the status code exactly when it is not; every `todoApi` operation
resolves or rejects with exactly `handleResponse` of its response. -/
theorem handleResponse_ok_and_error_rule :
    (∀ (α : Type) (resp : Response α),
      (handleResponse resp = Except.ok resp.jsonBody ↔ resp.ok = true)) ∧
    (∀ (α : Type) (resp : Response α), resp.ok = false →
      handleResponse resp =
        Except.error (APIError.make ("API failed " ++ toString resp.status))) ∧
    (∀ (resp : Response (List Todo)), (todoApi.fetchTodos resp).2 = handleResponse resp) ∧
    (∀ (n : String) (resp : Response Todo), (todoApi.createTodo n resp).2 = handleResponse resp) ∧
    (∀ (i : Int) (resp : Response Todo), (todoApi.fetchTodo i resp).2 = handleResponse resp) ∧
    (∀ (α : Type) (i : Int) (resp : Response α),
      (todoApi.deleteTodo i resp).2 = handleResponse resp) ∧
    (∀ (i : Int) (b : Bool) (resp : Response Todo),
      (todoApi.toggleTodo i b resp).2 = handleResponse resp) := by
  refine ⟨fun α resp => ?_, fun α resp h => ?_, fun resp => rfl, fun n resp => rfl,
    fun i resp => rfl, fun α i resp => rfl, fun i b resp => rfl⟩
  · cases hr : resp.ok <;> simp [handleResponse, hr]
  · simp [handleResponse, h]

/-- C4 witness: a 404 response produces the `APIError` with message
"API failed 404". -/
theorem handleResponse_ok_and_error_rule_witness :
    handleResponse { ok := false, status := 404, jsonBody := ([] : List Todo) } =
      Except.error (APIError.make ("API failed " ++ toString (404 : Nat))) :=
  handleResponse_ok_and_error_rule.2.1 (List Todo)
    { ok := false, status := 404, jsonBody := [] } rfl

/-- An update sequence that brackets its work in the loading flag: it is
reset-error, loading on, then a middle containing no loading-flag write,
then loading off. -/
def loadingBracketed (us : List StateUpdate) : Prop :=
  ∃ mid, us = StateUpdate.setError none :: StateUpdate.setIsLoading true ::
      (mid ++ [StateUpdate.setIsLoading false]) ∧
    ∀ (b : Bool), StateUpdate.setIsLoading b ∉ mid

/-- C5: `useTodos` exposes the todo list, the boolean `isLoading` flag and
the string-or-null `error` flag of its state, wraps the four API calls, and
each of the four operations turns `isLoading` on before its API call and
back off when it finishes, on success and on failure alike (so the final
state always has `isLoading = false`). -/
theorem useTodos_loading_discipline :
    (∀ (s : TodosState), (useTodos.render s).todos = s.todos ∧
      (useTodos.render s).isLoading = s.isLoading ∧
      (useTodos.render s).error = s.error) ∧
    (∀ (o : Except APIError (List Todo)), loadingBracketed (fetchTodosUpdates o)) ∧
    (∀ (o : Except APIError Todo), loadingBracketed (addTodoUpdates o)) ∧
    (∀ (renderTodos : List Todo) (todoId : Int) (o : Except APIError Unit),
      loadingBracketed (deleteTodoUpdates renderTodos todoId o)) ∧
    (∀ (t : Todo) (o : Except APIError Todo), loadingBracketed (toggleTodoUpdates t o)) ∧
    (∀ (s : TodosState) (resp : Response (List Todo)),
      (useTodos.fetchTodos s resp).2.isLoading = false) ∧
    (∀ (s : TodosState) (n : String) (resp : Response Todo),
      (useTodos.addTodo s n resp).2.isLoading = false) ∧
    (∀ (renderTodos : List Todo) (s : TodosState) (todoId : Int) (resp : Response Unit),
      (useTodos.deleteTodo renderTodos s todoId resp).2.isLoading = false) ∧
    (∀ (s : TodosState) (t : Todo) (resp : Response Todo),
      (useTodos.toggleTodo s t resp).2.isLoading = false) := by
  have hmem : ∀ (b : Bool) (f : List Todo → List Todo),
      StateUpdate.setIsLoading b ∉ [StateUpdate.setTodos f] := by
    intro b f h
    exact StateUpdate.noConfusion (List.mem_singleton.mp h)
  have hmem2 : ∀ (b : Bool) (e : Option String),
      StateUpdate.setIsLoading b ∉ [StateUpdate.setError e] := by
    intro b e h
    exact StateUpdate.noConfusion (List.mem_singleton.mp h)
  refine ⟨fun s => ⟨rfl, rfl, rfl⟩, fun o => ?_, fun o => ?_, fun rt i o => ?_,
    fun t o => ?_, fun s resp => ?_, fun s n resp => ?_, fun rt s i resp => ?_,
    fun s t resp => ?_⟩
  · cases o with
    | ok data => exact ⟨[StateUpdate.setTodos (fun _ => data)], rfl, fun b => hmem b _⟩
    | error e => exact ⟨[StateUpdate.setError (some "failed to load todos")], rfl,
        fun b => hmem2 b _⟩
  · cases o with
    | ok newTodo => exact ⟨[StateUpdate.setTodos (addTodoUpdater newTodo)], rfl,
        fun b => hmem b _⟩
    | error e => exact ⟨[StateUpdate.setError (some "failed to add todos")], rfl,
        fun b => hmem2 b _⟩
  · cases o with
    | ok u => exact ⟨[StateUpdate.setTodos (deleteTodoUpdater rt i)], rfl,
        fun b => hmem b _⟩
    | error e => exact ⟨[StateUpdate.setError (some "failed to delete todo")], rfl,
        fun b => hmem2 b _⟩
  · cases o with
    | ok updatedTodo => exact ⟨[StateUpdate.setTodos (toggleTodoUpdater t updatedTodo)], rfl,
        fun b => hmem b _⟩
    | error e => exact ⟨[StateUpdate.setError (some "failed to toggle todo")], rfl,
        fun b => hmem2 b _⟩
  · cases hr : resp.ok <;>
      simp [useTodos.fetchTodos, todoApi.fetchTodos, handleResponse, hr,
        fetchTodosUpdates, runUpdates, applyUpdate]
  · cases hr : resp.ok <;>
      simp [useTodos.addTodo, todoApi.createTodo, handleResponse, hr,
        addTodoUpdates, runUpdates, applyUpdate]
  · cases hr : resp.ok <;>
      simp [useTodos.deleteTodo, todoApi.deleteTodo, handleResponse, hr,
        deleteTodoUpdates, runUpdates, applyUpdate]
  · cases hr : resp.ok <;>
      simp [useTodos.toggleTodo, todoApi.toggleTodo, handleResponse, hr,
        toggleTodoUpdates, runUpdates, applyUpdate]

/-- C6: each client operation issues exactly one REST request of the stated
shape: list GETs the todos URL, add POSTs the todos URL with a JSON body
carrying the name, toggle PATCHes the per-todo URL with a JSON body carrying
the completed flag, delete DELETEs the per-todo URL, and view-detail GETs
the per-todo URL. -/
theorem client_operations_issue_single_requests (s : TodosState) (todoName : String)
    (todoId : Int) (t : Todo) (rl : Response (List Todo)) (rt rt2 : Response Todo)
    (ru : Response Unit) :
    (useTodos.fetchTodos s rl).1 =
      [{ method := "GET", url := API_URL, headers := [], body := none }] ∧
    (useTodos.addTodo s todoName rt).1 =
      [{ method := "POST", url := API_URL,
         headers := [("Content-type", "application/json")],
         body := some [("name", JsonValue.str todoName)] }] ∧
    (useTodos.toggleTodo s t rt2).1 =
      [{ method := "PATCH", url := API_URL ++ "/" ++ toString t.id,
         headers := [("Content-type", "application/json")],
         body := some [("completed", JsonValue.bool (!t.completed))] }] ∧
    (useTodos.deleteTodo s.todos s todoId ru).1 =
      [{ method := "DELETE", url := API_URL ++ "/" ++ toString todoId,
         headers := [], body := none }] ∧
    (todoApi.fetchTodo todoId rt).1 =
      [{ method := "GET", url := API_URL ++ "/" ++ toString todoId,
         headers := [], body := none }] := by
  refine ⟨rfl, ?_, ?_, ?_, ?_⟩ <;>
    simp [useTodos.addTodo, todoApi.createTodo, todoApi.createTodoRequest,
      useTodos.toggleTodo, todoApi.toggleTodo, todoApi.toggleTodoRequest,
      useTodos.deleteTodo, todoApi.deleteTodo, todoApi.deleteTodoRequest,
      todoApi.fetchTodo, todoApi.fetchTodoRequest, todoIdUrl, jsonHeaders]

/-- C7: every `Todo` value is exactly a record of a numeric id, a name, a
boolean completed flag, and optional description and priority fields —
nothing more and nothing less: it is determined by these five projections,
and each five-tuple of field values yields the `Todo` with those fields. -/
theorem Todo_is_exactly_the_five_field_record :
    (∀ (t : Todo), t = Todo.mk t.id t.name t.completed t.description t.priority) ∧
    (∀ (i : Int) (n : String) (c : Bool) (d : Option String) (p : Option Int),
      (Todo.mk i n c d p).id = i ∧ (Todo.mk i n c d p).name = n ∧
      (Todo.mk i n c d p).completed = c ∧ (Todo.mk i n c d p).description = d ∧
      (Todo.mk i n c d p).priority = p) := by
  exact ⟨fun t => rfl, fun i n c d p => ⟨rfl, rfl, rfl, rfl, rfl⟩⟩

/-- C8: the updater `deleteTodo` passes to `setTodos` ignores its
previous-state argument and filters the todos captured at invocation time,
so a successful delete leaves the list equal to the call-time snapshot with
all todos of the given id removed, whatever the state at update time was;
by contrast the `addTodo` and `toggleTodo` updaters act on their
previous-state argument. -/
theorem deleteTodo_filters_snapshot_not_previous_state
    (renderTodos prev prev2 : List Todo) (todoId : Int) (s : TodosState)
    (resp : Response Unit) (newTodo t updatedTodo : Todo) (hok : resp.ok = true) :
    deleteTodoUpdater renderTodos todoId prev =
      renderTodos.filter (fun todo => todo.id != todoId) ∧
    deleteTodoUpdater renderTodos todoId prev = deleteTodoUpdater renderTodos todoId prev2 ∧
    (useTodos.deleteTodo renderTodos s todoId resp).2.todos =
      renderTodos.filter (fun todo => todo.id != todoId) ∧
    addTodoUpdater newTodo prev = prev ++ [newTodo] ∧
    toggleTodoUpdater t updatedTodo prev =
      prev.map (fun prevTodo => if prevTodo.id = t.id then updatedTodo else prevTodo) := by
  refine ⟨rfl, rfl, ?_, rfl, rfl⟩
  simp [useTodos.deleteTodo, todoApi.deleteTodo, handleResponse, hok,
    deleteTodoUpdates, runUpdates, applyUpdate, deleteTodoUpdater]

/-- C8 witness: deleting id 1 after rendering with both sample todos leaves
only `sampleTodo2`, even though the state at update time held a different
list. -/
theorem deleteTodo_filters_snapshot_not_previous_state_witness :
    (useTodos.deleteTodo [sampleTodo1, sampleTodo2]
        { todos := [sampleTodo2], isLoading := false, error := none } 1
        { ok := true, status := 200, jsonBody := () }).2.todos =
      List.filter (fun todo => todo.id != (1 : Int)) [sampleTodo1, sampleTodo2] :=
  (deleteTodo_filters_snapshot_not_previous_state [sampleTodo1, sampleTodo2] [] [] 1
    { todos := [sampleTodo2], isLoading := false, error := none }
    { ok := true, status := 200, jsonBody := () }
    sampleTodo1 sampleTodo1 sampleTodo1 rfl).2.2.1

/-- C9: when the API call inside `addTodo`, `deleteTodo` or `toggleTodo`
fails, the todos list is left exactly as it was before the call. -/
theorem failed_operations_leave_todos_unchanged (s : TodosState) (todoName : String)
    (renderTodos : List Todo) (todoId : Int) (t : Todo)
    (rt rt2 : Response Todo) (ru : Response Unit)
    (h1 : rt.ok = false) (h2 : ru.ok = false) (h3 : rt2.ok = false) :
    (useTodos.addTodo s todoName rt).2.todos = s.todos ∧
    (useTodos.deleteTodo renderTodos s todoId ru).2.todos = s.todos ∧
    (useTodos.toggleTodo s t rt2).2.todos = s.todos := by
  refine ⟨?_, ?_, ?_⟩
  · simp [useTodos.addTodo, todoApi.createTodo, handleResponse, h1,
      addTodoUpdates, runUpdates, applyUpdate]
  · simp [useTodos.deleteTodo, todoApi.deleteTodo, handleResponse, h2,
      deleteTodoUpdates, runUpdates, applyUpdate]
  · simp [useTodos.toggleTodo, todoApi.toggleTodo, handleResponse, h3,
      toggleTodoUpdates, runUpdates, applyUpdate]

/-- C9 witness: with failing responses, all three mutating operations leave
the todos of `sampleState` untouched. -/
theorem failed_operations_leave_todos_unchanged_witness :
    (useTodos.addTodo sampleState "x"
        { ok := false, status := 500, jsonBody := sampleTodo1 }).2.todos =
      sampleState.todos ∧
    (useTodos.deleteTodo sampleState.todos sampleState 1
        { ok := false, status := 500, jsonBody := () }).2.todos = sampleState.todos ∧
    (useTodos.toggleTodo sampleState sampleTodo1
        { ok := false, status := 500, jsonBody := sampleTodo1 }).2.todos =
      sampleState.todos :=
  failed_operations_leave_todos_unchanged sampleState "x" sampleState.todos 1 sampleTodo1
    { ok := false, status := 500, jsonBody := sampleTodo1 }
    { ok := false, status := 500, jsonBody := sampleTodo1 }
    { ok := false, status := 500, jsonBody := () } rfl rfl rfl

/-- C10: `useTodoContext` throws exactly when the context value is
undefined, and otherwise returns the context value unchanged. -/
theorem useTodoContext_throws_iff_undefined (ctx : Option TodosContextValue)
    (c : TodosContextValue) :
    ((∃ msg, useTodoContext ctx = Except.error msg) ↔ ctx = none) ∧
    useTodoContext (some c) = Except.ok c := by
  refine ⟨?_, rfl⟩
  cases ctx <;> simp [useTodoContext]

/-- A sample context value: the hook rendered at its initial state. -/
def sampleContextValue : TodosContextValue := useTodos.render initialTodosState

/-- C10 witness: a defined context value is returned unchanged, and the
undefined context throws. -/
theorem useTodoContext_throws_iff_undefined_witness :
    useTodoContext (some sampleContextValue) = Except.ok sampleContextValue ∧
    ((∃ msg, useTodoContext (none : Option TodosContextValue) = Except.error msg) ↔
      (none : Option TodosContextValue) = none) :=
  ⟨(useTodoContext_throws_iff_undefined (some sampleContextValue) sampleContextValue).2,
    (useTodoContext_throws_iff_undefined none sampleContextValue).1⟩
